import Mathlib

/-!
Shallow embedding of the WasmEdge import-linking subsystem
(`src/lib/executor/instantiate/import.cpp`) and of the expression loader
(`src/lib/loader/ast/expression.cpp`).

C++ `Expect<T>` is modelled as `Except ErrCode T`.  The `spdlog::error`
diagnostics sink is modelled explicitly: every operation returns its result
paired with the list of structured log items it emitted, in emission order.
Store entity lookups (`StoreMgr.getFunction` etc.) are dereferenced
unconditionally in the source (invariant I2: resolved addresses are live),
so entity-type lookup is modelled as a total function per kind.
-/

set_option autoImplicit false

namespace WasmEdge

/-- WebAssembly value types (the closed set used by `FullValType`). -/
inductive ValType where
  | i32
  | i64
  | f32
  | f64
  | v128
  | funcRefV
  | externRefV
  deriving DecidableEq, Repr

/-- Reference types for table elements. -/
inductive RefType where
  | funcRef
  | externRef
  deriving DecidableEq, Repr

/-- Global mutability (`ValMut`). -/
inductive ValMut where
  | constM
  | varM
  deriving DecidableEq, Repr

/-- `ExternalType`: the closed four-kind set of importable entities. -/
inductive ExternalType where
  | function
  | table
  | memory
  | global
  deriving DecidableEq, Repr

/-- `AST::FunctionType`: ordered parameter and return types. -/
structure FuncType where
  paramTypes : List ValType
  returnTypes : List ValType
  deriving DecidableEq, Repr

/-- `AST::Limit`: `getMin`, `hasMax`, `getMax`.  The C++ object stores a
minimum, a flag for the presence of a maximum, and a maximum field that is
read (e.g. for diagnostics) even when the flag is unset. -/
structure Limit where
  min : Nat
  hasMax : Bool
  max : Nat
  deriving DecidableEq, Repr

/-- `AST::TableType`: element reference type plus limit. -/
structure TableType where
  refType : RefType
  limit : Limit
  deriving DecidableEq, Repr

/-- `AST::MemoryType`: just a limit. -/
structure MemoryType where
  limit : Limit
  deriving DecidableEq, Repr

/-- `AST::GlobalType`: value type plus mutability. -/
structure GlobalType where
  valType : ValType
  valMut : ValMut
  deriving DecidableEq, Repr

/-- The two error codes produced by this translation unit. -/
inductive ErrCode where
  | unknownImport
  | incompatibleImportType
  deriving DecidableEq, Repr

/-- The AST node attributes this translation unit reports in diagnostics. -/
inductive ASTNodeAttr where
  | descImport
  | expression
  deriving DecidableEq, Repr

/-- `ErrInfo::InfoMismatch` payloads: one constructor per overload used in
the source (expected data first, actual data second, as at each call site). -/
inductive MismatchInfo where
  | kinds (expKind actKind : ExternalType)
  | funcSig (expParams expReturns actParams actReturns : List ValType)
  | tableSig (expRef : RefType) (expHasMax : Bool) (expMin expMax : Nat)
      (actRef : RefType) (actHasMax : Bool) (actMin actMax : Nat)
  | memSig (expHasMax : Bool) (expMin expMax : Nat)
      (actHasMax : Bool) (actMin actMax : Nat)
  | globalSig (expVal : ValType) (expMut : ValMut) (actVal : ValType) (actMut : ValMut)
  deriving DecidableEq, Repr

/-- One `spdlog::error(...)` emission of structured error context. -/
inductive LogItem where
  | errCode (c : ErrCode)
  | mismatch (info : MismatchInfo)
  | linking (modName extName : String) (extType : ExternalType)
  | astNode (n : ASTNodeAttr)
  deriving DecidableEq, Repr

/-- `Runtime::Instance::ModuleInstance`, restricted to what this translation
unit reads and writes: the per-kind export maps (`get*Exports`), the function
type section (`getFuncType`, read via an index from the import descriptor of
the instantiating module), and the per-kind imported-address sequences
appended by `importFunction` / `importTable` / `importMemory` /
`importGlobal`. -/
structure ModuleInstance where
  funcExports : List (String × Nat)
  tableExports : List (String × Nat)
  memExports : List (String × Nat)
  globalExports : List (String × Nat)
  funcTypes : Nat → FuncType
  importedFuncs : List Nat
  importedTables : List Nat
  importedMems : List Nat
  importedGlobals : List Nat

/-- `ModuleInstance::importFunction`: append the resolved address. -/
def ModuleInstance.importFunction (m : ModuleInstance) (addr : Nat) : ModuleInstance :=
  { m with importedFuncs := m.importedFuncs ++ [addr] }

/-- `ModuleInstance::importTable`: append the resolved address. -/
def ModuleInstance.importTable (m : ModuleInstance) (addr : Nat) : ModuleInstance :=
  { m with importedTables := m.importedTables ++ [addr] }

/-- `ModuleInstance::importMemory`: append the resolved address. -/
def ModuleInstance.importMemory (m : ModuleInstance) (addr : Nat) : ModuleInstance :=
  { m with importedMems := m.importedMems ++ [addr] }

/-- `ModuleInstance::importGlobal`: append the resolved address. -/
def ModuleInstance.importGlobal (m : ModuleInstance) (addr : Nat) : ModuleInstance :=
  { m with importedGlobals := m.importedGlobals ++ [addr] }

/-- `Runtime::StoreManager`: the module-name registry plus the per-kind
entity tables.  Entity lookup is total per the source's unconditional
dereference of `getFunction` / `getTable` / `getMemory` / `getGlobal`
(each entity's declared type is all this unit reads). -/
structure StoreManager where
  modules : List (String × ModuleInstance)
  funcs : Nat → FuncType
  tables : Nat → TableType
  mems : Nat → MemoryType
  globals : Nat → GlobalType

/-- `StoreManager::findModule`. -/
def StoreManager.findModule (s : StoreManager) (name : String) : Option ModuleInstance :=
  s.modules.lookup name

/-- `AST::ImportDesc`: module name, external name, and the kind-specific
declared type (function type index, table type, memory type or global type). -/
inductive ImportDesc where
  | func (modName extName : String) (typeIdx : Nat)
  | table (modName extName : String) (tabType : TableType)
  | mem (modName extName : String) (memType : MemoryType)
  | global (modName extName : String) (globType : GlobalType)
  deriving DecidableEq, Repr

/-- `ImportDesc::getModuleName`. -/
def ImportDesc.modName : ImportDesc → String
  | .func n _ _ => n
  | .table n _ _ => n
  | .mem n _ _ => n
  | .global n _ _ => n

/-- `ImportDesc::getExternalName`. -/
def ImportDesc.extName : ImportDesc → String
  | .func _ n _ => n
  | .table _ n _ => n
  | .mem _ n _ => n
  | .global _ n _ => n

/-- `ImportDesc::getExternalType`. -/
def ImportDesc.extType : ImportDesc → ExternalType
  | .func _ _ _ => .function
  | .table _ _ _ => .table
  | .mem _ _ _ => .memory
  | .global _ _ _ => .global

/-- `logMatchError`: emit the incompatible-import diagnostics and return
`Unexpect(ErrCode::IncompatibleImportType)`. -/
def logMatchError {α : Type} (modName extName : String) (extType : ExternalType)
    (node : ASTNodeAttr) (info : MismatchInfo) : Except ErrCode α × List LogItem :=
  (Except.error ErrCode.incompatibleImportType,
   [LogItem.errCode ErrCode.incompatibleImportType,
    LogItem.mismatch info,
    LogItem.linking modName extName extType,
    LogItem.astNode node])

/-- `logUnknownError`: emit the unknown-import diagnostics and return
`Unexpect(ErrCode::UnknownImport)`. -/
def logUnknownError {α : Type} (modName extName : String) (extType : ExternalType)
    (node : ASTNodeAttr) : Except ErrCode α × List LogItem :=
  (Except.error ErrCode.unknownImport,
   [LogItem.errCode ErrCode.unknownImport,
    LogItem.linking modName extName extType,
    LogItem.astNode node])

/-- `isLimitMatched(Lim1, Lim2)`: does candidate limit `Lim1` satisfy the
declared limit `Lim2`? -/
def isLimitMatched (lim1 lim2 : Limit) : Bool :=
  if lim1.min < lim2.min ∨ (¬ lim1.hasMax ∧ lim2.hasMax) then
    false
  else if lim1.hasMax ∧ lim2.hasMax ∧ lim1.max > lim2.max then
    false
  else
    true

/-- The per-kind export-map lookup performed by the first `switch` of
`getImportAddr` (`get*Exports().find(ExtName)`). -/
def exportLookup (modInst : ModuleInstance) (extType : ExternalType)
    (extName : String) : Option Nat :=
  match extType with
  | .function => modInst.funcExports.lookup extName
  | .table => modInst.tableExports.lookup extName
  | .memory => modInst.memExports.lookup extName
  | .global => modInst.globalExports.lookup extName

/-- The kind under which `getImportAddr`'s fall-through scan (function,
table, memory, global, in that order) first finds `extName`, if any. -/
def foundKind (modInst : ModuleInstance) (extName : String) : Option ExternalType :=
  if (modInst.funcExports.lookup extName).isSome then some .function
  else if (modInst.tableExports.lookup extName).isSome then some .table
  else if (modInst.memExports.lookup extName).isSome then some .memory
  else if (modInst.globalExports.lookup extName).isSome then some .global
  else none

/-- `getImportAddr`: resolve `extName` of kind `extType` inside
`modInst`'s export maps; on a miss, scan the other kinds to classify the
failure as wrong-kind (`IncompatibleImportType`) or `UnknownImport`. -/
def getImportAddr (modName extName : String) (extType : ExternalType)
    (node : ASTNodeAttr) (modInst : ModuleInstance) :
    Except ErrCode Nat × List LogItem :=
  match exportLookup modInst extType extName with
  | some addr => (Except.ok addr, [])
  | none =>
    if (modInst.funcExports.lookup extName).isSome then
      logMatchError modName extName extType node (.kinds extType .function)
    else if (modInst.tableExports.lookup extName).isSome then
      logMatchError modName extName extType node (.kinds extType .table)
    else if (modInst.memExports.lookup extName).isSome then
      logMatchError modName extName extType node (.kinds extType .memory)
    else if (modInst.globalExports.lookup extName).isSome then
      logMatchError modName extName extType node (.kinds extType .global)
    else
      logUnknownError modName extName extType node

/-- One iteration of the loop body of `Executor::instantiate` for a single
descriptor: find the source module, resolve the export address,
apply the kind-specific type check, and on success append the address to
the instantiating module instance. -/
def instantiateStep (store : StoreManager) (modInst : ModuleInstance)
    (impDesc : ImportDesc) : Except ErrCode ModuleInstance × List LogItem :=
  match store.findModule impDesc.modName with
  | none =>
    logUnknownError impDesc.modName impDesc.extName impDesc.extType .descImport
  | some targetModInst =>
    match getImportAddr impDesc.modName impDesc.extName impDesc.extType
        .descImport targetModInst with
    | (Except.error e, log) => (Except.error e, log)
    | (Except.ok targetAddr, log0) =>
      match impDesc with
      | .func modName extName typeIdx =>
        let targetType := store.funcs targetAddr
        let funcType := modInst.funcTypes typeIdx
        if targetType ≠ funcType then
          let (r, log) := logMatchError (α := ModuleInstance) modName extName
            .function .descImport
            (.funcSig funcType.paramTypes funcType.returnTypes
              targetType.paramTypes targetType.returnTypes)
          (r, log0 ++ log)
        else
          (Except.ok (modInst.importFunction targetAddr), log0)
      | .table modName extName tabType =>
        let tabLim := tabType.limit
        let targetType := store.tables targetAddr
        let targetLim := targetType.limit
        if targetType.refType ≠ tabType.refType ∨ ¬ isLimitMatched targetLim tabLim then
          let (r, log) := logMatchError (α := ModuleInstance) modName extName
            .table .descImport
            (.tableSig tabType.refType tabLim.hasMax tabLim.min tabLim.max
              targetType.refType targetLim.hasMax targetLim.min targetLim.max)
          (r, log0 ++ log)
        else
          (Except.ok (modInst.importTable targetAddr), log0)
      | .mem modName extName memType =>
        let memLim := memType.limit
        let targetLim := (store.mems targetAddr).limit
        if ¬ isLimitMatched targetLim memLim then
          let (r, log) := logMatchError (α := ModuleInstance) modName extName
            .memory .descImport
            (.memSig memLim.hasMax memLim.min memLim.max
              targetLim.hasMax targetLim.min targetLim.max)
          (r, log0 ++ log)
        else
          (Except.ok (modInst.importMemory targetAddr), log0)
      | .global modName extName globType =>
        let targetType := store.globals targetAddr
        if targetType ≠ globType then
          let (r, log) := logMatchError (α := ModuleInstance) modName extName
            .global .descImport
            (.globalSig globType.valType globType.valMut
              targetType.valType targetType.valMut)
          (r, log0 ++ log)
        else
          (Except.ok (modInst.importGlobal targetAddr), log0)

/-- `Executor::instantiate` over an import section: iterate the import
descriptors in declaration order, short-circuiting on the first failure.
Returns the C++ `Expect<void>` result, the final state of the mutated
module instance, and the emitted diagnostics. -/
def instantiate (store : StoreManager) (modInst : ModuleInstance) :
    List ImportDesc → Except ErrCode Unit × ModuleInstance × List LogItem
  | [] => (Except.ok (), modInst, [])
  | impDesc :: rest =>
    match instantiateStep store modInst impDesc with
    | (Except.ok modInst2, log) =>
      let (res, modInst3, log2) := instantiate store modInst2 rest
      (res, modInst3, log ++ log2)
    | (Except.error e, log) => (Except.error e, modInst, log)

/-- The address a single import descriptor resolves to (source-module lookup
followed by `getImportAddr`), when both succeed. -/
def resolveAddr (store : StoreManager) (impDesc : ImportDesc) : Option Nat :=
  match store.findModule impDesc.modName with
  | none => none
  | some targetModInst =>
    match getImportAddr impDesc.modName impDesc.extName impDesc.extType
        .descImport targetModInst with
    | (Except.ok addr, _) => some addr
    | (Except.error _, _) => none

/-- `AST::Expression`, restricted to what `loadExpression` touches: its
instruction sequence (instructions themselves stay abstract). -/
structure Expression (α : Type) where
  instrs : List α
  deriving DecidableEq, Repr

/-- `Loader::loadExpression`: the outcome of the `loadInstrSeq` collaborator
is passed in as `res`; on success the expression's instruction sequence is
overwritten, on failure the AST diagnostic is logged and the error is
propagated.  Returns the `Expect<void>` result, the final state of `Expr`,
and the emitted diagnostics. -/
def loadExpression {ε α : Type} (res : Except ε (List α)) (expr : Expression α) :
    Except ε Unit × Expression α × List LogItem :=
  match res with
  | Except.ok instrs => (Except.ok (), { expr with instrs := instrs }, [])
  | Except.error e => (Except.error e, expr, [LogItem.astNode ASTNodeAttr.expression])

/-- Appending one resolved address to the per-kind sequence selected by the
external kind (the four `ModuleInstance::import*` calls of the loop body). -/
def appendAddr (m : ModuleInstance) (k : ExternalType) (a : Nat) : ModuleInstance :=
  match k with
  | .function => m.importFunction a
  | .table => m.importTable a
  | .memory => m.importMemory a
  | .global => m.importGlobal a

/-- The diagnostic context emitted for a failing import: the error kind is
repeated at the head, `InfoLinking` carries the offending (module name,
external name, external kind), and an `IncompatibleImportType` failure
additionally carries an `InfoMismatch` payload with both type sides. -/
def failContext (impDesc : ImportDesc) (e : ErrCode) (log : List LogItem) : Prop :=
  (e = ErrCode.unknownImport ∧
    log = [LogItem.errCode ErrCode.unknownImport,
           LogItem.linking impDesc.modName impDesc.extName impDesc.extType,
           LogItem.astNode ASTNodeAttr.descImport]) ∨
  (e = ErrCode.incompatibleImportType ∧ ∃ info,
    log = [LogItem.errCode ErrCode.incompatibleImportType,
           LogItem.mismatch info,
           LogItem.linking impDesc.modName impDesc.extName impDesc.extType,
           LogItem.astNode ASTNodeAttr.descImport])

/-- A concrete registered module instance used to evaluate the theorems:
exports function `add` at address 0 and function `f` at address 1, a table,
a memory and a global, each at address 0. -/
def envInst : ModuleInstance :=
  { funcExports := [("add", 0), ("f", 1)]
    tableExports := [("tab", 0)]
    memExports := [("mem", 0)]
    globalExports := [("glob", 0)]
    funcTypes := fun _ => { paramTypes := [], returnTypes := [] }
    importedFuncs := []
    importedTables := []
    importedMems := []
    importedGlobals := [] }

/-- A concrete store registering `envInst` under the name `env`.  Function
address 0 has type `(i32, i32) -> i32`, function address 1 has type
`() -> i32`; the table is unbounded with minimum 10; the memory has limit
`{min 1, max 2}`; the global is an immutable `i32`. -/
def sampleStore : StoreManager :=
  { modules := [("env", envInst)]
    funcs := fun a =>
      if a = 0 then { paramTypes := [ValType.i32, ValType.i32], returnTypes := [ValType.i32] }
      else { paramTypes := [], returnTypes := [ValType.i32] }
    tables := fun _ => { refType := RefType.funcRef, limit := { min := 10, hasMax := false, max := 0 } }
    mems := fun _ => { limit := { min := 1, hasMax := true, max := 2 } }
    globals := fun _ => { valType := ValType.i32, valMut := ValMut.constM } }

/-- A concrete importing module instance under construction: empty address
sequences; its type section has `(i32, i32) -> i32` at index 0 and
`() -> i64` at index 1. -/
def importerInst : ModuleInstance :=
  { funcExports := []
    tableExports := []
    memExports := []
    globalExports := []
    funcTypes := fun idx =>
      if idx = 0 then { paramTypes := [ValType.i32, ValType.i32], returnTypes := [ValType.i32] }
      else { paramTypes := [], returnTypes := [ValType.i64] }
    importedFuncs := []
    importedTables := []
    importedMems := []
    importedGlobals := [] }

/-- The addresses the function imports of an import section resolve to, in
declaration order (the expected content of `importedFuncs` after a fully
successful instantiation). -/
def funcImportAddrs (store : StoreManager) (descs : List ImportDesc) : List Nat :=
  descs.filterMap (fun d =>
    match d with
    | ImportDesc.func _ _ _ => resolveAddr store d
    | _ => none)

/-- The addresses the table imports resolve to, in declaration order. -/
def tableImportAddrs (store : StoreManager) (descs : List ImportDesc) : List Nat :=
  descs.filterMap (fun d =>
    match d with
    | ImportDesc.table _ _ _ => resolveAddr store d
    | _ => none)

/-- The addresses the memory imports resolve to, in declaration order. -/
def memImportAddrs (store : StoreManager) (descs : List ImportDesc) : List Nat :=
  descs.filterMap (fun d =>
    match d with
    | ImportDesc.mem _ _ _ => resolveAddr store d
    | _ => none)

/-- The addresses the global imports resolve to, in declaration order. -/
def globalImportAddrs (store : StoreManager) (descs : List ImportDesc) : List Nat :=
  descs.filterMap (fun d =>
    match d with
    | ImportDesc.global _ _ _ => resolveAddr store d
    | _ => none)

/-! ## Helper lemmas -/

theorem getImportAddr_of_exportLookup_some {m : ModuleInstance} {ty : ExternalType}
    {ext : String} {a : Nat} (mod : String) (node : ASTNodeAttr)
    (h : exportLookup m ty ext = some a) :
    getImportAddr mod ext ty node m = (Except.ok a, []) := by
  unfold getImportAddr
  rw [h]

theorem getImportAddr_fst_ok_iff (mod ext : String) (ty : ExternalType)
    (node : ASTNodeAttr) (m : ModuleInstance) (a : Nat) :
    (getImportAddr mod ext ty node m).1 = Except.ok a ↔ exportLookup m ty ext = some a := by
  unfold getImportAddr
  cases h : exportLookup m ty ext with
  | some b => simp
  | none => split_ifs <;> simp [logMatchError, logUnknownError]

theorem getImportAddr_fst_unknown_iff (mod ext : String) (ty : ExternalType)
    (node : ASTNodeAttr) (m : ModuleInstance) :
    (getImportAddr mod ext ty node m).1 = Except.error ErrCode.unknownImport ↔
      ∀ k, exportLookup m k ext = none := by
  unfold getImportAddr
  cases h : exportLookup m ty ext with
  | some b =>
    simp only [Prod.fst]
    constructor
    · intro hc
      exact absurd hc (by simp)
    · intro hall
      exact absurd (hall ty) (by simp [h])
  | none =>
    split_ifs with h1 h2 h3 h4
    · simp only [logMatchError]
      constructor
      · intro hc
        exact absurd hc (by simp)
      · intro hall
        have hf := hall ExternalType.function
        simp only [exportLookup] at hf
        rw [hf] at h1
        simp at h1
    · simp only [logMatchError]
      constructor
      · intro hc
        exact absurd hc (by simp)
      · intro hall
        have hf := hall ExternalType.table
        simp only [exportLookup] at hf
        rw [hf] at h2
        simp at h2
    · simp only [logMatchError]
      constructor
      · intro hc
        exact absurd hc (by simp)
      · intro hall
        have hf := hall ExternalType.memory
        simp only [exportLookup] at hf
        rw [hf] at h3
        simp at h3
    · simp only [logMatchError]
      constructor
      · intro hc
        exact absurd hc (by simp)
      · intro hall
        have hf := hall ExternalType.global
        simp only [exportLookup] at hf
        rw [hf] at h4
        simp at h4
    · simp only [logUnknownError]
      constructor
      · intro _ k
        cases k <;>
          simp_all [exportLookup, Option.isSome_iff_exists, Option.eq_none_iff_forall_not_mem]
      · intro _
        trivial

theorem getImportAddr_error_shape {mod ext : String} {ty : ExternalType}
    {node : ASTNodeAttr} {m : ModuleInstance} {e : ErrCode} {log : List LogItem}
    (h : getImportAddr mod ext ty node m = (Except.error e, log)) :
    (e = ErrCode.unknownImport ∧
      log = [LogItem.errCode ErrCode.unknownImport, LogItem.linking mod ext ty,
             LogItem.astNode node]) ∨
    (e = ErrCode.incompatibleImportType ∧ ∃ info,
      log = [LogItem.errCode ErrCode.incompatibleImportType, LogItem.mismatch info,
             LogItem.linking mod ext ty, LogItem.astNode node]) := by
  unfold getImportAddr at h
  cases hx : exportLookup m ty ext with
  | some a =>
    rw [hx] at h
    simp at h
  | none =>
    rw [hx] at h
    split_ifs at h <;>
      simp only [logMatchError, logUnknownError, Prod.mk.injEq, Except.error.injEq] at h <;>
      obtain ⟨rfl, rfl⟩ := h <;>
      first
        | exact Or.inl ⟨rfl, rfl⟩
        | exact Or.inr ⟨rfl, _, rfl⟩

theorem instantiateStep_of_findModule_none {store : StoreManager}
    {modInst : ModuleInstance} {impDesc : ImportDesc}
    (hm : store.findModule impDesc.modName = none) :
    instantiateStep store modInst impDesc =
      (Except.error ErrCode.unknownImport,
       [LogItem.errCode ErrCode.unknownImport,
        LogItem.linking impDesc.modName impDesc.extName impDesc.extType,
        LogItem.astNode ASTNodeAttr.descImport]) := by
  cases impDesc <;>
    simp_all [instantiateStep, ImportDesc.modName, ImportDesc.extName,
      ImportDesc.extType, logUnknownError]

theorem instantiateStep_of_getImportAddr_error {store : StoreManager}
    {modInst : ModuleInstance} {impDesc : ImportDesc} {target : ModuleInstance}
    {e : ErrCode} {lg : List LogItem}
    (hm : store.findModule impDesc.modName = some target)
    (hg : getImportAddr impDesc.modName impDesc.extName impDesc.extType
        ASTNodeAttr.descImport target = (Except.error e, lg)) :
    instantiateStep store modInst impDesc = (Except.error e, lg) := by
  cases impDesc <;>
    simp_all [instantiateStep, ImportDesc.modName, ImportDesc.extName, ImportDesc.extType]

theorem instantiateStep_ok_shape {store : StoreManager} {modInst : ModuleInstance}
    {impDesc : ImportDesc} {inst2 : ModuleInstance} {lg : List LogItem}
    (h : instantiateStep store modInst impDesc = (Except.ok inst2, lg)) :
    ∃ target a, store.findModule impDesc.modName = some target ∧
      exportLookup target impDesc.extType impDesc.extName = some a ∧
      resolveAddr store impDesc = some a ∧
      inst2 = appendAddr modInst impDesc.extType a ∧ lg = [] := by
  cases hm : store.findModule impDesc.modName with
  | none =>
    rw [instantiateStep_of_findModule_none hm] at h
    simp at h
  | some target =>
    rcases hg : getImportAddr impDesc.modName impDesc.extName impDesc.extType
        ASTNodeAttr.descImport target with ⟨r, lgr⟩
    cases r with
    | error e =>
      rw [instantiateStep_of_getImportAddr_error hm hg] at h
      simp at h
    | ok a =>
      have hx : exportLookup target impDesc.extType impDesc.extName = some a := by
        have := getImportAddr_fst_ok_iff impDesc.modName impDesc.extName
          impDesc.extType ASTNodeAttr.descImport target a
        rw [hg] at this
        exact this.mp rfl
      have hga := getImportAddr_of_exportLookup_some impDesc.modName
        ASTNodeAttr.descImport hx
      have hres : resolveAddr store impDesc = some a := by
        simp only [resolveAddr, hm, hga]
      refine ⟨target, a, rfl, hx, hres, ?_⟩
      cases impDesc with
      | func mn en idx =>
        simp only [ImportDesc.modName, ImportDesc.extName, ImportDesc.extType] at h hga hm
        simp only [instantiateStep, ImportDesc.modName, ImportDesc.extName,
          ImportDesc.extType, hm, hga, logMatchError] at h
        split_ifs at h with hc
        all_goals
          first
            | (simp only [Prod.mk.injEq, Except.ok.injEq] at h
               exact ⟨h.1.symm, h.2.symm⟩)
            | simp at h
      | table mn en tt =>
        simp only [ImportDesc.modName, ImportDesc.extName, ImportDesc.extType] at h hga hm
        simp only [instantiateStep, ImportDesc.modName, ImportDesc.extName,
          ImportDesc.extType, hm, hga, logMatchError] at h
        split_ifs at h with hc
        all_goals
          first
            | (simp only [Prod.mk.injEq, Except.ok.injEq] at h
               exact ⟨h.1.symm, h.2.symm⟩)
            | simp at h
      | mem mn en mt =>
        simp only [ImportDesc.modName, ImportDesc.extName, ImportDesc.extType] at h hga hm
        simp only [instantiateStep, ImportDesc.modName, ImportDesc.extName,
          ImportDesc.extType, hm, hga, logMatchError] at h
        split_ifs at h with hc
        all_goals
          first
            | (simp only [Prod.mk.injEq, Except.ok.injEq] at h
               exact ⟨h.1.symm, h.2.symm⟩)
            | simp at h
      | global mn en gt =>
        simp only [ImportDesc.modName, ImportDesc.extName, ImportDesc.extType] at h hga hm
        simp only [instantiateStep, ImportDesc.modName, ImportDesc.extName,
          ImportDesc.extType, hm, hga, logMatchError] at h
        split_ifs at h with hc
        all_goals
          first
            | (simp only [Prod.mk.injEq, Except.ok.injEq] at h
               exact ⟨h.1.symm, h.2.symm⟩)
            | simp at h

theorem instantiateStep_error_context {store : StoreManager} {modInst : ModuleInstance}
    {impDesc : ImportDesc} {e : ErrCode} {lg : List LogItem}
    (h : instantiateStep store modInst impDesc = (Except.error e, lg)) :
    failContext impDesc e lg := by
  cases hm : store.findModule impDesc.modName with
  | none =>
    rw [instantiateStep_of_findModule_none hm] at h
    simp only [Prod.mk.injEq, Except.error.injEq] at h
    obtain ⟨rfl, rfl⟩ := h
    exact Or.inl ⟨rfl, rfl⟩
  | some target =>
    rcases hg : getImportAddr impDesc.modName impDesc.extName impDesc.extType
        ASTNodeAttr.descImport target with ⟨r, lgr⟩
    cases r with
    | error e2 =>
      rw [instantiateStep_of_getImportAddr_error hm hg] at h
      simp only [Prod.mk.injEq, Except.error.injEq] at h
      obtain ⟨rfl, rfl⟩ := h
      exact getImportAddr_error_shape hg
    | ok a =>
      have hx : exportLookup target impDesc.extType impDesc.extName = some a := by
        have := getImportAddr_fst_ok_iff impDesc.modName impDesc.extName
          impDesc.extType ASTNodeAttr.descImport target a
        rw [hg] at this
        exact this.mp rfl
      have hga := getImportAddr_of_exportLookup_some impDesc.modName
        ASTNodeAttr.descImport hx
      cases impDesc with
      | func mn en idx =>
        simp only [ImportDesc.modName, ImportDesc.extName, ImportDesc.extType] at h hga hm
        simp only [instantiateStep, ImportDesc.modName, ImportDesc.extName,
          ImportDesc.extType, hm, hga, logMatchError] at h
        split_ifs at h with hc
        all_goals
          first
            | (simp only [List.nil_append, Prod.mk.injEq, Except.error.injEq] at h
               obtain ⟨rfl, rfl⟩ := h
               exact Or.inr ⟨rfl, _, rfl⟩)
            | simp at h
      | table mn en tt =>
        simp only [ImportDesc.modName, ImportDesc.extName, ImportDesc.extType] at h hga hm
        simp only [instantiateStep, ImportDesc.modName, ImportDesc.extName,
          ImportDesc.extType, hm, hga, logMatchError] at h
        split_ifs at h with hc
        all_goals
          first
            | (simp only [List.nil_append, Prod.mk.injEq, Except.error.injEq] at h
               obtain ⟨rfl, rfl⟩ := h
               exact Or.inr ⟨rfl, _, rfl⟩)
            | simp at h
      | mem mn en mt =>
        simp only [ImportDesc.modName, ImportDesc.extName, ImportDesc.extType] at h hga hm
        simp only [instantiateStep, ImportDesc.modName, ImportDesc.extName,
          ImportDesc.extType, hm, hga, logMatchError] at h
        split_ifs at h with hc
        all_goals
          first
            | (simp only [List.nil_append, Prod.mk.injEq, Except.error.injEq] at h
               obtain ⟨rfl, rfl⟩ := h
               exact Or.inr ⟨rfl, _, rfl⟩)
            | simp at h
      | global mn en gt =>
        simp only [ImportDesc.modName, ImportDesc.extName, ImportDesc.extType] at h hga hm
        simp only [instantiateStep, ImportDesc.modName, ImportDesc.extName,
          ImportDesc.extType, hm, hga, logMatchError] at h
        split_ifs at h with hc
        all_goals
          first
            | (simp only [List.nil_append, Prod.mk.injEq, Except.error.injEq] at h
               obtain ⟨rfl, rfl⟩ := h
               exact Or.inr ⟨rfl, _, rfl⟩)
            | simp at h

theorem instantiate_cons_ok {store : StoreManager} {modInst inst2 : ModuleInstance}
    {d : ImportDesc} {rest : List ImportDesc} {lg : List LogItem}
    (hs : instantiateStep store modInst d = (Except.ok inst2, lg)) :
    instantiate store modInst (d :: rest) =
      ((instantiate store inst2 rest).1, (instantiate store inst2 rest).2.1,
        lg ++ (instantiate store inst2 rest).2.2) := by
  rcases hr : instantiate store inst2 rest with ⟨res, m3, lg2⟩
  simp only [instantiate, hs, hr]

theorem instantiate_cons_error {store : StoreManager} {modInst : ModuleInstance}
    {d : ImportDesc} {rest : List ImportDesc} {e : ErrCode} {lg : List LogItem}
    (hs : instantiateStep store modInst d = (Except.error e, lg)) :
    instantiate store modInst (d :: rest) = (Except.error e, modInst, lg) := by
  simp only [instantiate, hs]

theorem instantiate_append_ok {store : StoreManager} {modInst inst1 : ModuleInstance}
    {l1 : List ImportDesc} {log1 : List LogItem} (l2 : List ImportDesc)
    (h : instantiate store modInst l1 = (Except.ok (), inst1, log1)) :
    instantiate store modInst (l1 ++ l2) =
      ((instantiate store inst1 l2).1, (instantiate store inst1 l2).2.1,
        log1 ++ (instantiate store inst1 l2).2.2) := by
  induction l1 generalizing modInst log1 with
  | nil =>
    simp only [instantiate, Prod.mk.injEq, true_and] at h
    obtain ⟨rfl, rfl⟩ := h
    simp
  | cons d rest ih =>
    rcases hs : instantiateStep store modInst d with ⟨r, lg⟩
    cases r with
    | error e =>
      rw [instantiate_cons_error hs] at h
      simp at h
    | ok inst2 =>
      rw [instantiate_cons_ok hs] at h
      rcases hr : instantiate store inst2 rest with ⟨res, m3, lg2⟩
      rw [hr] at h
      simp only [Prod.mk.injEq] at h
      obtain ⟨h1, h2, h3⟩ := h
      subst h1
      subst h2
      subst h3
      rw [List.cons_append, instantiate_cons_ok hs, ih hr]
      simp [List.append_assoc]

theorem funcTypeEqIff {t u : FuncType} :
    t = u ↔ t.paramTypes = u.paramTypes ∧ t.returnTypes = u.returnTypes := by
  cases t
  cases u
  simp [FuncType.mk.injEq]

theorem globalTypeEqIff {t u : GlobalType} :
    t = u ↔ t.valType = u.valType ∧ t.valMut = u.valMut := by
  cases t
  cases u
  simp [GlobalType.mk.injEq]

theorem instantiateStep_fst_ne_unknown {store : StoreManager} {modInst : ModuleInstance}
    {impDesc : ImportDesc} {target : ModuleInstance} {a : Nat}
    (hm : store.findModule impDesc.modName = some target)
    (hga : getImportAddr impDesc.modName impDesc.extName impDesc.extType
        ASTNodeAttr.descImport target = (Except.ok a, [])) :
    (instantiateStep store modInst impDesc).1 ≠ Except.error ErrCode.unknownImport := by
  cases impDesc <;>
    (simp only [ImportDesc.modName, ImportDesc.extName, ImportDesc.extType] at hga hm
     simp only [instantiateStep, ImportDesc.modName, ImportDesc.extName,
       ImportDesc.extType, hm, hga, logMatchError]
     split_ifs <;> simp)

/-! ## Claim theorems -/

/-- C2: the limit-matching predicate returns true iff the candidate minimum
is at least the declared minimum, an unbounded candidate never satisfies a
bounded declared limit, and when both bounds exist the candidate maximum is
at most the declared maximum; with the two concrete examples from the spec. -/
theorem isLimitMatched_spec :
    (∀ c d : Limit, isLimitMatched c d = true ↔
      (d.min ≤ c.min ∧ ¬ (c.hasMax = false ∧ d.hasMax = true) ∧
        (c.hasMax = true → d.hasMax = true → c.max ≤ d.max))) ∧
    (∀ m : Nat, isLimitMatched ⟨5, true, 10⟩ ⟨3, false, m⟩ = true) ∧
    (∀ m : Nat, isLimitMatched ⟨5, false, m⟩ ⟨3, true, 10⟩ = false) := by
  refine ⟨?_, ?_, ?_⟩
  · intro c d
    obtain ⟨cmin, chm, cmax⟩ := c
    obtain ⟨dmin, dhm, dmax⟩ := d
    cases chm <;> cases dhm
    · simp [isLimitMatched, Nat.not_lt]
    · simp [isLimitMatched, Nat.not_lt]
    · simp [isLimitMatched, Nat.not_lt]
    · simp [isLimitMatched, Nat.not_lt]
  · intro m
    simp [isLimitMatched]
  · intro m
    simp [isLimitMatched]

/-- C3: when the requested name is not exported under the requested kind but
is exported under another kind, the lookup fails with
`IncompatibleImportType` (not `UnknownImport`) and the diagnostic reports the
actual kind under which the name was found. -/
theorem getImportAddr_wrong_kind (modName extName : String) (extType : ExternalType)
    (node : ASTNodeAttr) (modInst : ModuleInstance) (actual : ExternalType)
    (hmiss : exportLookup modInst extType extName = none)
    (hfound : foundKind modInst extName = some actual) :
    getImportAddr modName extName extType node modInst =
      (Except.error ErrCode.incompatibleImportType,
       [LogItem.errCode ErrCode.incompatibleImportType,
        LogItem.mismatch (MismatchInfo.kinds extType actual),
        LogItem.linking modName extName extType,
        LogItem.astNode node]) ∧
    (exportLookup modInst actual extName).isSome = true ∧ actual ≠ extType := by
  unfold getImportAddr foundKind at *
  rw [hmiss]
  split_ifs at hfound ⊢ with h1 h2 h3 h4
  · obtain rfl : ExternalType.function = actual := Option.some.inj hfound
    refine ⟨rfl, by simpa [exportLookup] using h1, ?_⟩
    intro heq
    rw [← heq, exportLookup] at hmiss
    simp [hmiss] at h1
  · obtain rfl : ExternalType.table = actual := Option.some.inj hfound
    refine ⟨rfl, by simpa [exportLookup] using h2, ?_⟩
    intro heq
    rw [← heq, exportLookup] at hmiss
    simp [hmiss] at h2
  · obtain rfl : ExternalType.memory = actual := Option.some.inj hfound
    refine ⟨rfl, by simpa [exportLookup] using h3, ?_⟩
    intro heq
    rw [← heq, exportLookup] at hmiss
    simp [hmiss] at h3
  · obtain rfl : ExternalType.global = actual := Option.some.inj hfound
    refine ⟨rfl, by simpa [exportLookup] using h4, ?_⟩
    intro heq
    rw [← heq, exportLookup] at hmiss
    simp [hmiss] at h4

/-- C1: if imports 1..k-1 all resolve and type-check and import k fails,
`instantiate` returns import k\'s classified error, the returned module
instance is exactly the one reached after imports 1..k-1 (their addresses
remain appended, nothing is appended for imports k..n), and the whole run
equals the run truncated right after import k (no later import is
examined). -/
theorem instantiate_short_circuits (store : StoreManager)
    (modInst instK : ModuleInstance) (descs : List ImportDesc) (k : Nat)
    (hk : k < descs.length) (logP logK : List LogItem) (e : ErrCode)
    (hpre : instantiate store modInst (descs.take k) = (Except.ok (), instK, logP))
    (hfail : instantiateStep store instK (descs.get ⟨k, hk⟩) = (Except.error e, logK)) :
    instantiate store modInst descs = (Except.error e, instK, logP ++ logK) ∧
    instantiate store modInst descs =
      instantiate store modInst (descs.take (k + 1)) := by
  have hd : descs.drop k = descs.get ⟨k, hk⟩ :: descs.drop (k + 1) :=
    List.drop_eq_getElem_cons hk
  have hrest : instantiate store instK (descs.drop k) = (Except.error e, instK, logK) := by
    rw [hd]
    exact instantiate_cons_error hfail
  have hsingle : instantiate store instK [descs.get ⟨k, hk⟩] =
      (Except.error e, instK, logK) :=
    instantiate_cons_error hfail
  have h1 := instantiate_append_ok (descs.drop k) hpre
  rw [List.take_append_drop] at h1
  have htake : descs.take (k + 1) = descs.take k ++ [descs.get ⟨k, hk⟩] := by
    rw [List.take_succ, List.getElem?_eq_getElem hk]
    rfl
  have h2 := instantiate_append_ok [descs.get ⟨k, hk⟩] hpre
  constructor
  · rw [h1, hrest]
  · rw [htake, h1, h2, hrest, hsingle]

/-- C1 witness: with the sample store, importing `env.add` (which succeeds)
and then `env.f` against function type `(i32,i32) -> i32` (which fails the
signature check) short-circuits with `IncompatibleImportType`, leaving only
the first import\'s address appended. -/
theorem instantiate_short_circuits_witness :
    instantiate sampleStore importerInst
        [ImportDesc.func "env" "add" 0, ImportDesc.func "env" "f" 0] =
      (Except.error ErrCode.incompatibleImportType,
       importerInst.importFunction 0,
       [] ++ [LogItem.errCode ErrCode.incompatibleImportType,
        LogItem.mismatch (MismatchInfo.funcSig [ValType.i32, ValType.i32] [ValType.i32]
          [] [ValType.i32]),
        LogItem.linking "env" "f" ExternalType.function,
        LogItem.astNode ASTNodeAttr.descImport]) :=
  (instantiate_short_circuits sampleStore importerInst (importerInst.importFunction 0)
    [ImportDesc.func "env" "add" 0, ImportDesc.func "env" "f" 0] 1 (by decide)
    [] [LogItem.errCode ErrCode.incompatibleImportType,
        LogItem.mismatch (MismatchInfo.funcSig [ValType.i32, ValType.i32] [ValType.i32]
          [] [ValType.i32]),
        LogItem.linking "env" "f" ExternalType.function,
        LogItem.astNode ASTNodeAttr.descImport] ErrCode.incompatibleImportType
    rfl rfl).1

/-- C4: a single import fails with `UnknownImport` exactly when the named
source module is not registered in the store, or it is registered but
exports the requested name under none of the four kinds; with an
unregistered module this holds whatever the requested name and kind are. -/
theorem unknownImport_characterization (store : StoreManager)
    (modInst : ModuleInstance) (impDesc : ImportDesc) :
    (instantiateStep store modInst impDesc).1 = Except.error ErrCode.unknownImport ↔
      store.findModule impDesc.modName = none ∨
      ∃ target, store.findModule impDesc.modName = some target ∧
        ∀ k, exportLookup target k impDesc.extName = none := by
  cases hm : store.findModule impDesc.modName with
  | none =>
    rw [instantiateStep_of_findModule_none hm]
    simp
  | some target =>
    constructor
    · intro h
      rcases hg : getImportAddr impDesc.modName impDesc.extName impDesc.extType
          ASTNodeAttr.descImport target with ⟨r, lgr⟩
      cases r with
      | error e2 =>
        rw [instantiateStep_of_getImportAddr_error hm hg] at h
        have he : e2 = ErrCode.unknownImport := Except.error.inj h
        subst he
        refine Or.inr ⟨target, rfl, ?_⟩
        have hfst : (getImportAddr impDesc.modName impDesc.extName impDesc.extType
            ASTNodeAttr.descImport target).1 = Except.error ErrCode.unknownImport := by
          rw [hg]
        exact (getImportAddr_fst_unknown_iff _ _ _ _ _).mp hfst
      | ok a =>
        exfalso
        have hx : exportLookup target impDesc.extType impDesc.extName = some a := by
          have hiff := getImportAddr_fst_ok_iff impDesc.modName impDesc.extName
            impDesc.extType ASTNodeAttr.descImport target a
          rw [hg] at hiff
          exact hiff.mp rfl
        have hga := getImportAddr_of_exportLookup_some impDesc.modName
          ASTNodeAttr.descImport hx
        exact instantiateStep_fst_ne_unknown hm hga h
    · rintro (h | ⟨t, ht, hall⟩)
      · exact absurd h (by simp)
      · obtain rfl : target = t := Option.some.inj ht
        have hfst : (getImportAddr impDesc.modName impDesc.extName impDesc.extType
            ASTNodeAttr.descImport target).1 = Except.error ErrCode.unknownImport :=
          (getImportAddr_fst_unknown_iff _ _ _ _ _).mpr hall
        have hpair := (Prod.mk.eta (p := getImportAddr impDesc.modName impDesc.extName
          impDesc.extType ASTNodeAttr.descImport target)).symm
        rw [hfst] at hpair
        rw [instantiateStep_of_getImportAddr_error hm hpair]

/-- C5: for a function import whose export address resolves, linking
succeeds iff the candidate function type equals the declared one exactly
(same ordered parameter types, same ordered return types); any difference
yields `IncompatibleImportType`. -/
theorem func_import_exact_match (store : StoreManager) (modInst : ModuleInstance)
    (modName extName : String) (typeIdx : Nat) (target : ModuleInstance) (addr : Nat)
    (hm : store.findModule modName = some target)
    (hx : exportLookup target ExternalType.function extName = some addr) :
    ((instantiateStep store modInst (ImportDesc.func modName extName typeIdx)).1 =
        Except.ok (modInst.importFunction addr) ↔
      (store.funcs addr).paramTypes = (modInst.funcTypes typeIdx).paramTypes ∧
        (store.funcs addr).returnTypes = (modInst.funcTypes typeIdx).returnTypes) ∧
    (¬ ((store.funcs addr).paramTypes = (modInst.funcTypes typeIdx).paramTypes ∧
        (store.funcs addr).returnTypes = (modInst.funcTypes typeIdx).returnTypes) →
      (instantiateStep store modInst (ImportDesc.func modName extName typeIdx)).1 =
        Except.error ErrCode.incompatibleImportType) := by
  have hga := getImportAddr_of_exportLookup_some modName ASTNodeAttr.descImport hx
  simp only [instantiateStep, ImportDesc.modName, ImportDesc.extName,
    ImportDesc.extType, hm, hga, logMatchError]
  rcases eq_or_ne (store.funcs addr) (modInst.funcTypes typeIdx) with hc | hc
  · rw [if_neg (fun hne => hne hc)]
    have hf := funcTypeEqIff.mp hc
    constructor
    · exact ⟨fun _ => hf, fun _ => rfl⟩
    · intro hne
      exact absurd hf hne
  · rw [if_pos hc]
    constructor
    · constructor
      · intro habs
        simp at habs
      · intro hfields
        exact absurd (funcTypeEqIff.mpr hfields) hc
    · intro _
      rfl

/-- C5 witness: importing `env.f` (candidate return types `[i32]`) against a
declared type with return types `[i64]` fails with `IncompatibleImportType`. -/
theorem func_import_exact_match_witness :
    (instantiateStep sampleStore importerInst (ImportDesc.func "env" "f" 1)).1 =
      Except.error ErrCode.incompatibleImportType :=
  (func_import_exact_match sampleStore importerInst "env" "f" 1 envInst 1
    rfl rfl).2 (by decide)

/-- C6: for a table import whose export address resolves, linking succeeds
iff the candidate table\'s element reference type equals the declared one
exactly and the candidate limit satisfies the declared limit under the
limit-matching rule; otherwise `IncompatibleImportType` is returned. -/
theorem table_import_match (store : StoreManager) (modInst : ModuleInstance)
    (modName extName : String) (tabType : TableType) (target : ModuleInstance)
    (addr : Nat) (hm : store.findModule modName = some target)
    (hx : exportLookup target ExternalType.table extName = some addr) :
    ((instantiateStep store modInst (ImportDesc.table modName extName tabType)).1 =
        Except.ok (modInst.importTable addr) ↔
      (store.tables addr).refType = tabType.refType ∧
        isLimitMatched (store.tables addr).limit tabType.limit = true) ∧
    (¬ ((store.tables addr).refType = tabType.refType ∧
        isLimitMatched (store.tables addr).limit tabType.limit = true) →
      (instantiateStep store modInst (ImportDesc.table modName extName tabType)).1 =
        Except.error ErrCode.incompatibleImportType) := by
  have hga := getImportAddr_of_exportLookup_some modName ASTNodeAttr.descImport hx
  simp only [instantiateStep, ImportDesc.modName, ImportDesc.extName,
    ImportDesc.extType, hm, hga, logMatchError]
  by_cases hc : (store.tables addr).refType = tabType.refType ∧
      isLimitMatched (store.tables addr).limit tabType.limit = true
  · rw [if_neg (fun hor => hor.elim (fun hne => hne hc.1) (fun hnl => hnl hc.2))]
    constructor
    · exact ⟨fun _ => hc, fun _ => rfl⟩
    · intro hne
      exact absurd hc hne
  · rw [if_pos (not_and_or.mp hc)]
    constructor
    · constructor
      · intro habs
        simp at habs
      · intro hfields
        exact absurd hfields hc
    · intro _
      rfl

/-- C6 witness: the sample table export is unbounded (`min 10`, no max), so
importing it with a declared bounded limit `{min 5, max 20}` fails with
`IncompatibleImportType` even though the reference types agree. -/
theorem table_import_match_witness :
    (instantiateStep sampleStore importerInst
        (ImportDesc.table "env" "tab"
          { refType := RefType.funcRef,
            limit := { min := 5, hasMax := true, max := 20 } })).1 =
      Except.error ErrCode.incompatibleImportType :=
  (table_import_match sampleStore importerInst "env" "tab"
    { refType := RefType.funcRef, limit := { min := 5, hasMax := true, max := 20 } }
    envInst 0 rfl rfl).2 (by decide)

/-- C7: for a global import whose export address resolves, linking succeeds
iff the candidate global\'s (value type, mutability) pair equals the declared
pair exactly; in particular a mutability mismatch alone (equal value types)
is an `IncompatibleImportType` error, in both directions. -/
theorem global_import_exact_match (store : StoreManager) (modInst : ModuleInstance)
    (modName extName : String) (globType : GlobalType) (target : ModuleInstance)
    (addr : Nat) (hm : store.findModule modName = some target)
    (hx : exportLookup target ExternalType.global extName = some addr) :
    ((instantiateStep store modInst (ImportDesc.global modName extName globType)).1 =
        Except.ok (modInst.importGlobal addr) ↔
      (store.globals addr).valType = globType.valType ∧
        (store.globals addr).valMut = globType.valMut) ∧
    (¬ ((store.globals addr).valType = globType.valType ∧
        (store.globals addr).valMut = globType.valMut) →
      (instantiateStep store modInst (ImportDesc.global modName extName globType)).1 =
        Except.error ErrCode.incompatibleImportType) ∧
    ((store.globals addr).valType = globType.valType →
      (store.globals addr).valMut ≠ globType.valMut →
      (instantiateStep store modInst (ImportDesc.global modName extName globType)).1 =
        Except.error ErrCode.incompatibleImportType) := by
  have hga := getImportAddr_of_exportLookup_some modName ASTNodeAttr.descImport hx
  simp only [instantiateStep, ImportDesc.modName, ImportDesc.extName,
    ImportDesc.extType, hm, hga, logMatchError]
  rcases eq_or_ne (store.globals addr) globType with hc | hc
  · rw [if_neg (fun hne => hne hc)]
    have hf := globalTypeEqIff.mp hc
    refine ⟨⟨fun _ => hf, fun _ => rfl⟩, ?_, ?_⟩
    · intro hne
      exact absurd hf hne
    · intro _ hmut
      exact absurd hf.2 hmut
  · rw [if_pos hc]
    refine ⟨?_, fun _ => rfl, fun _ _ => rfl⟩
    constructor
    · intro habs
      simp at habs
    · intro hfields
      exact absurd (globalTypeEqIff.mpr hfields) hc

/-- C7 witness: the sample global export is an immutable `i32`; importing it
as a mutable `i32` (equal value types, different mutability) fails with
`IncompatibleImportType`. -/
theorem global_import_exact_match_witness :
    (instantiateStep sampleStore importerInst
        (ImportDesc.global "env" "glob"
          { valType := ValType.i32, valMut := ValMut.varM })).1 =
      Except.error ErrCode.incompatibleImportType :=
  (global_import_exact_match sampleStore importerInst "env" "glob"
    { valType := ValType.i32, valMut := ValMut.varM } envInst 0 rfl rfl).2.2
    (by decide) (by decide)

/-- C8: when every import of the section is satisfiable, the per-kind
imported-address sequences of the resulting module instance extend the
initial ones with exactly the resolved addresses of the imports of that
kind, in declaration order. -/
theorem instantiate_order (store : StoreManager) (modInst inst2 : ModuleInstance)
    (descs : List ImportDesc) (log : List LogItem)
    (h : instantiate store modInst descs = (Except.ok (), inst2, log)) :
    inst2.importedFuncs = modInst.importedFuncs ++ funcImportAddrs store descs ∧
    inst2.importedTables = modInst.importedTables ++ tableImportAddrs store descs ∧
    inst2.importedMems = modInst.importedMems ++ memImportAddrs store descs ∧
    inst2.importedGlobals = modInst.importedGlobals ++ globalImportAddrs store descs := by
  induction descs generalizing modInst log with
  | nil =>
    simp only [instantiate, Prod.mk.injEq, true_and] at h
    obtain ⟨rfl, rfl⟩ := h
    simp [funcImportAddrs, tableImportAddrs, memImportAddrs, globalImportAddrs]
  | cons d rest ih =>
    rcases hs : instantiateStep store modInst d with ⟨r, lg⟩
    cases r with
    | error e =>
      rw [instantiate_cons_error hs] at h
      simp at h
    | ok inst3 =>
      rw [instantiate_cons_ok hs] at h
      rcases hr : instantiate store inst3 rest with ⟨res, m3, lg2⟩
      rw [hr] at h
      simp only [Prod.mk.injEq] at h
      obtain ⟨h1, h2, h3⟩ := h
      have hok : instantiate store inst3 rest = (Except.ok (), inst2, lg2) := by
        rw [hr, h1, h2]
      obtain ⟨t, a, -, -, hres, hinst3, -⟩ := instantiateStep_ok_shape hs
      obtain ⟨ih1, ih2, ih3, ih4⟩ := ih inst3 lg2 hok
      cases d <;>
        (refine ⟨?_, ?_, ?_, ?_⟩ <;>
          simp [funcImportAddrs, tableImportAddrs, memImportAddrs, globalImportAddrs,
            List.filterMap_cons, hres, ih1, ih2, ih3, ih4, hinst3, appendAddr,
            ImportDesc.extType, ModuleInstance.importFunction, ModuleInstance.importTable,
            ModuleInstance.importMemory, ModuleInstance.importGlobal, List.append_assoc])

/-- C8 witness: linking `env.add` (function, resolves to address 0) and then
`env.mem` (memory, resolves to address 0) appends exactly those addresses in
declaration order to the respective per-kind sequences. -/
theorem instantiate_order_witness :
    ((importerInst.importFunction 0).importMemory 0).importedFuncs =
        importerInst.importedFuncs ++ funcImportAddrs sampleStore
          [ImportDesc.func "env" "add" 0,
           ImportDesc.mem "env" "mem" { limit := { min := 1, hasMax := true, max := 4 } }] ∧
    ((importerInst.importFunction 0).importMemory 0).importedTables =
        importerInst.importedTables ++ tableImportAddrs sampleStore
          [ImportDesc.func "env" "add" 0,
           ImportDesc.mem "env" "mem" { limit := { min := 1, hasMax := true, max := 4 } }] ∧
    ((importerInst.importFunction 0).importMemory 0).importedMems =
        importerInst.importedMems ++ memImportAddrs sampleStore
          [ImportDesc.func "env" "add" 0,
           ImportDesc.mem "env" "mem" { limit := { min := 1, hasMax := true, max := 4 } }] ∧
    ((importerInst.importFunction 0).importMemory 0).importedGlobals =
        importerInst.importedGlobals ++ globalImportAddrs sampleStore
          [ImportDesc.func "env" "add" 0,
           ImportDesc.mem "env" "mem" { limit := { min := 1, hasMax := true, max := 4 } }] :=
  instantiate_order sampleStore importerInst
    ((importerInst.importFunction 0).importMemory 0)
    [ImportDesc.func "env" "add" 0,
     ImportDesc.mem "env" "mem" { limit := { min := 1, hasMax := true, max := 4 } }]
    [] rfl

/-- C9, as stated, is false: the returned error value is the bare error code
and does not carry the offending (moduleName, externalName) — two failing
runs that differ in the offending module and export names return identical
error values. -/
theorem error_result_forgets_context :
    (instantiate sampleStore importerInst [ImportDesc.func "missingA" "x" 0]).1 =
      (instantiate sampleStore importerInst [ImportDesc.func "missingB" "y" 0]).1 ∧
    (instantiate sampleStore importerInst [ImportDesc.func "missingA" "x" 0]).1 =
      Except.error ErrCode.unknownImport ∧
    (ImportDesc.func "missingA" "x" 0).modName ≠ (ImportDesc.func "missingB" "y" 0).modName ∧
    (ImportDesc.func "missingA" "x" 0).extName ≠ (ImportDesc.func "missingB" "y" 0).extName :=
  ⟨rfl, rfl, by decide, by decide⟩

/-- C9 (amended): whenever `instantiate` fails, the returned error value
carries the error kind (`UnknownImport` or `IncompatibleImportType`) only;
the offending (moduleName, externalName, externalKind) and, for
`IncompatibleImportType`, the mismatch details are emitted to the
diagnostics sink, whose content for the offending import is exactly the
emitted log. -/
theorem instantiate_error_kind_and_log (store : StoreManager)
    (modInst inst2 : ModuleInstance) (descs : List ImportDesc) (e : ErrCode)
    (log : List LogItem)
    (h : instantiate store modInst descs = (Except.error e, inst2, log)) :
    (e = ErrCode.unknownImport ∨ e = ErrCode.incompatibleImportType) ∧
    ∃ impDesc, impDesc ∈ descs ∧ failContext impDesc e log := by
  induction descs generalizing modInst with
  | nil => simp [instantiate] at h
  | cons d rest ih =>
    rcases hs : instantiateStep store modInst d with ⟨r, lg⟩
    cases r with
    | error e2 =>
      rw [instantiate_cons_error hs] at h
      simp only [Prod.mk.injEq, Except.error.injEq] at h
      obtain ⟨rfl, rfl, rfl⟩ := h
      have hfc := instantiateStep_error_context hs
      refine ⟨?_, d, List.mem_cons_self d rest, hfc⟩
      rcases hfc with ⟨he, -⟩ | ⟨he, -⟩
      · exact Or.inl he
      · exact Or.inr he
    | ok inst3 =>
      rw [instantiate_cons_ok hs] at h
      rcases hr : instantiate store inst3 rest with ⟨res, m3, lg2⟩
      rw [hr] at h
      simp only [Prod.mk.injEq] at h
      obtain ⟨h1, h2, h3⟩ := h
      obtain ⟨t, a, -, -, -, -, hlg⟩ := instantiateStep_ok_shape hs
      subst hlg
      rw [List.nil_append] at h3
      have hrec : instantiate store inst3 rest = (Except.error e, inst2, log) := by
        rw [hr, h1, h2, h3]
      obtain ⟨hkind, dd, hmem, hfc⟩ := ih inst3 hrec
      exact ⟨hkind, dd, List.mem_cons_of_mem d hmem, hfc⟩

/-- C9 (amended) witness: a failing run over one unknown import returns the
bare `UnknownImport` code while the log carries the offending names. -/
theorem instantiate_error_kind_and_log_witness :
    (ErrCode.unknownImport = ErrCode.unknownImport ∨
      ErrCode.unknownImport = ErrCode.incompatibleImportType) ∧
    ∃ impDesc, impDesc ∈ [ImportDesc.func "missing" "x" 0] ∧
      failContext impDesc ErrCode.unknownImport
        [LogItem.errCode ErrCode.unknownImport,
         LogItem.linking "missing" "x" ExternalType.function,
         LogItem.astNode ASTNodeAttr.descImport] :=
  instantiate_error_kind_and_log sampleStore importerInst importerInst
    [ImportDesc.func "missing" "x" 0] ErrCode.unknownImport
    [LogItem.errCode ErrCode.unknownImport,
     LogItem.linking "missing" "x" ExternalType.function,
     LogItem.astNode ASTNodeAttr.descImport] rfl

/-- C10: `loadExpression` succeeds iff `loadInstrSeq` does; on success the
expression\'s instruction sequence is set to exactly the loaded sequence (and
nothing is logged), and on failure the expression is left unchanged and the
error from `loadInstrSeq` is propagated unchanged (with the `Expression` AST
diagnostic logged). -/
theorem loadExpression_propagates {ε α : Type} (res : Except ε (List α))
    (expr : Expression α) :
    ((loadExpression res expr).1 = Except.ok () ↔ ∃ instrs, res = Except.ok instrs) ∧
    (∀ instrs, res = Except.ok instrs →
      loadExpression res expr = (Except.ok (), { expr with instrs := instrs }, [])) ∧
    (∀ e, res = Except.error e →
      loadExpression res expr =
        (Except.error e, expr, [LogItem.astNode ASTNodeAttr.expression])) := by
  cases res <;> simp [loadExpression]

/-- C3 witness: requesting `env.add` as a Global when it is exported only as
a Function yields `IncompatibleImportType` (not `UnknownImport`) with the
actual kind Function reported in the mismatch payload. -/
theorem getImportAddr_wrong_kind_witness :
    (getImportAddr "env" "add" ExternalType.global ASTNodeAttr.descImport envInst =
      (Except.error ErrCode.incompatibleImportType,
       [LogItem.errCode ErrCode.incompatibleImportType,
        LogItem.mismatch (MismatchInfo.kinds ExternalType.global ExternalType.function),
        LogItem.linking "env" "add" ExternalType.global,
        LogItem.astNode ASTNodeAttr.descImport])) ∧
    (exportLookup envInst ExternalType.function "add").isSome = true ∧
    ExternalType.function ≠ ExternalType.global :=
  getImportAddr_wrong_kind "env" "add" ExternalType.global ASTNodeAttr.descImport
    envInst ExternalType.function rfl rfl

end WasmEdge
